import Mathlib

/-! Formal verification of the Reverb Draft Creator pipeline (src/app.py).

The program is a single linear pipeline: extract a listing id from a URL,
fetch the listing metadata, build a draft payload, create the draft, resolve
the returned draft id, and upload each user photo through a chain of fallback
attempts.  This file gives a shallow embedding of that pipeline: Python dict
values become `PyVal`, fallible attribute access becomes `Except`, HTTP
traffic is driven by an oracle environment assigning a response (or a raised
transport exception) to every request the program can issue, and the
Streamlit status feed becomes an explicit list of messages.

Modelling conventions: strings are Lean `String` / `List Char`; regex
`^(\d+)` digits are ASCII digits; byte buffers are `List Nat`; the textual
rendering of container values by f-strings is abbreviated; quotation marks
inside a few debug strings are elided.  None of the verified claims depends
on these renderings. -/

namespace ReverbDraft

/-- Python values as this program manipulates them (JSON-decoded responses,
payload dictionaries).  `pynone` is Python `None` (JSON `null`). -/
inductive PyVal where
  | pynone
  | pystr (s : String)
  | pyint (n : Int)
  | pydict (fields : List (String × PyVal))
  | pylist (xs : List PyVal)

/-- Python truthiness for the values above: `None`, `""`, `0`, `{}`, `[]`
are falsy, everything else truthy. -/
def truthy : PyVal → Bool
  | .pynone => false
  | .pystr s => !(s == "")
  | .pyint n => !(n == 0)
  | .pydict fs => !fs.isEmpty
  | .pylist xs => !xs.isEmpty

/-- First-match association-list lookup, the semantics of indexing a Python
dict (keys are unique in an actual dict, so first-match is exact). -/
def dictLookup (fields : List (String × PyVal)) (k : String) : Option PyVal :=
  match fields with
  | [] => none
  | (k₁, v) :: rest => if k₁ = k then some v else dictLookup rest k

/-- Python `v.get(key, dflt)`: on a dict, lookup with default; on `None` or
any non-dict value it raises `AttributeError` (there is no `.get` method). -/
def pyGet (v : PyVal) (key : String) (dflt : PyVal) : Except String PyVal :=
  match v with
  | .pydict fs => .ok ((dictLookup fs key).getD dflt)
  | .pynone => .error "AttributeError: NoneType object has no attribute get"
  | _ => .error "AttributeError: object has no attribute get"

/-- Python `str(v)` as used in the f-strings of this program (container
renderings abbreviated; only scalars are ever interpolated on the paths the
claims touch). -/
def pyStr : PyVal → String
  | .pynone => "None"
  | .pystr s => s
  | .pyint n => toString n
  | .pydict _ => "<dict>"
  | .pylist _ => "<list>"

/-! ### String helpers (Python `in`, `split`, and `re.match` on `^(\d+)`) -/

/-- Python substring containment `needle in hay`. -/
def strContains (hay needle : List Char) : Bool :=
  match hay with
  | [] => needle.isEmpty
  | _ :: tl => needle.isPrefixOf hay || strContains tl needle

/-- Split a list at the first occurrence of `sep`: returns the part strictly
before it and the part strictly after it, or `none` when `sep` does not
occur. -/
def splitFirst (sep : List Char) : List Char → Option (List Char × List Char)
  | [] => if sep.isEmpty then some ([], []) else none
  | c :: cs =>
    if sep.isPrefixOf (c :: cs) then some ([], (c :: cs).drop sep.length)
    else
      match splitFirst sep cs with
      | some (pre, post) => some (c :: pre, post)
      | none => none

/-- Element `[1]` of Python `s.split(sep)`: the segment between the first and
the second occurrence of `sep` (up to the end when `sep` occurs once);
`none` when `sep` does not occur at all (Python would raise `IndexError`). -/
def pySplitSecond (sep s : List Char) : Option (List Char) :=
  match splitFirst sep s with
  | none => none
  | some (_, post) =>
    match splitFirst sep post with
    | none => some post
    | some (pre₂, _) => some pre₂

/-- Element `[0]` of Python `s.split(sep)`: everything before the first
occurrence of `sep`, or all of `s` when `sep` does not occur. -/
def pySplitHead (sep s : List Char) : List Char :=
  match splitFirst sep s with
  | none => s
  | some (pre, _) => pre

/-- The membership marker checked by `extract_listing_id`. -/
def markerFull : List Char := "reverb.com/item/".toList

/-- The separator actually used for the split in `extract_listing_id`. -/
def markerItem : List Char := "/item/".toList

/-- src/app.py `extract_listing_id`: refuse URLs not containing
`reverb.com/item/`; otherwise take `url.split("/item/")[1]`, strip a query
string with `.split("?")[0]`, and return the leading digit run matched by
`re.match(r"^(\d+)", part)`, or `None` when there is none.  (The `none`
branch of the inner match is unreachable: the marker check guarantees an
occurrence of `/item/`.) -/
def extract_listing_id (url : String) : Option String :=
  if strContains url.toList markerFull then
    match pySplitSecond markerItem url.toList with
    | none => none
    | some part =>
      let part₂ := pySplitHead "?".toList part
      let digits := part₂.takeWhile Char.isDigit
      if digits.isEmpty then none else some (String.mk digits)
  else none

/-! ### Draft payload construction (src/app.py lines 80-90) -/

/-- src/app.py lines 80-90: the draft payload dict literal, with the dict
entries evaluated left to right exactly as Python does (the `price`
sub-expression `listing.get("price", {})` is evaluated once for `amount` and
once for `currency`).  Any `AttributeError` raised by a `.get` on a non-dict
propagates as `Except.error`. -/
def buildPayload (listing : PyVal) : Except String PyVal := do
  let title ← pyGet listing "title" (.pystr "")
  let description ← pyGet listing "description" (.pystr "")
  let brand ← pyGet listing "make" (.pystr "")
  let model ← pyGet listing "model" (.pystr "")
  let priceObj₁ ← pyGet listing "price" (.pydict [])
  let amount ← pyGet priceObj₁ "amount" (.pystr "1.00")
  let priceObj₂ ← pyGet listing "price" (.pydict [])
  let currency ← pyGet priceObj₂ "currency" (.pystr "USD")
  .ok (.pydict [("title", title), ("description", description),
    ("brand", brand), ("model", model),
    ("price", .pydict [("amount", amount), ("currency", currency)]),
    ("state", .pystr "draft")])

/-! ### Draft id resolution (src/app.py line 105) -/

/-- src/app.py line 105:
`draft_id = draft_data.get("id") or draft_data.get("listing", {}).get("id")`
with Python short-circuit `or`: the right operand is evaluated only when the
left one is falsy. -/
def resolveDraftId (draftData : PyVal) : Except String PyVal := do
  let a ← pyGet draftData "id" .pynone
  if truthy a then .ok a
  else do
    let l ← pyGet draftData "listing" (.pydict [])
    pyGet l "id" .pynone

/-! ### HTTP model

Every request the program can issue is recorded as a `Call`; the network is
an oracle (`Outcome` per request slot) that either returns a response
(status, text body, decoded JSON) or raises a transport exception.  A photo
file is a named byte buffer; the Python file object's read position is
threaded explicitly: `requests` transmits the bytes from the current
position to the end of the stream and leaves the position at the end. -/

/-- Result of one HTTP request: a raised transport exception, or a response
with status code, text body, and the value `.json()` would decode to. -/
inductive Outcome where
  | exn (msg : String)
  | resp (status : Nat) (text : String) (json : PyVal)

/-- One user-supplied photo: filename and content bytes. -/
structure FileInput where
  name : String
  content : List Nat
  deriving DecidableEq

/-- The HTTP requests src/app.py can issue, with the data each carries.
`auth` is the Authorization header value; `body` fields are the bytes read
from the photo stream for the transfer. -/
inductive Call where
  | getListing (listingId : String) (auth : String)
  | createDraft (auth : String) (payload : PyVal)
  | photoMultipart (draftId : PyVal) (fieldKey : String) (filename : String)
      (body : List Nat) (auth : String)
  | presignRequest (draftId : PyVal) (filename : String) (auth : String)
  | presignPut (uploadUrl : PyVal) (body : List Nat)
  | altPhotoUpload (fieldKey : String) (filename : String) (body : List Nat)
      (auth : String)
  | associatePhoto (draftId : PyVal) (photoId : PyVal) (auth : String)

/-- The Streamlit status feed: one entry per `st.info` / `st.error` /
`st.success` / `st.write` / `st.code` call. -/
inductive Msg where
  | info (s : String)
  | error (s : String)
  | success (s : String)
  | write (s : String)
  | codeBlock (s : String)
  deriving DecidableEq

/-- Per-photo outcome: success at fallback attempt `n`, all four attempts
failed, or a transport exception was caught. -/
inductive UploadResult where
  | okAttempt (n : Nat)
  | allFailed
  | excepted (msg : String)

/-- Observable effect of processing one photo: messages emitted, HTTP calls
issued (in order), and the recorded outcome. -/
structure PhotoOut where
  msgs : List Msg
  calls : List Call
  outcome : UploadResult

/-- src/app.py lines 208-210: the per-photo `except` handler — the error is
reported and recorded; the loop moves on to the next photo. -/
def exnOut (idx : Nat) (fname : String) (ms : List Msg) (cs : List Call)
    (e : String) : PhotoOut :=
  { msgs := ms ++ [.error ("Exception uploading photo " ++ toString idx ++ ": " ++ fname),
      .codeBlock e],
    calls := cs, outcome := .excepted e }

/-- src/app.py lines 205-206: all four upload attempts failed for this
photo. -/
def failOut (idx : Nat) (fname : String) (ms : List Msg) (cs : List Call) :
    PhotoOut :=
  { msgs := ms ++ [.error ("All upload attempts failed for photo " ++ toString idx ++
      ": " ++ fname ++ ". Check token permissions or API docs.")],
    calls := cs, outcome := .allFailed }

/-- src/app.py lines 181-206: attempt 4 — POST the bytes still left in the
stream (from position `pos`) to `/photos` with the `file` key, then on
success associate the returned photo id with the draft.  Env slot 4 is the
alt upload, slot 5 the association call. -/
def attempt4Part (auth : String) (draftId : PyVal) (idx : Nat) (f : FileInput)
    (env : Nat → Outcome) (ms : List Msg) (cs : List Call) (pos : Nat) : PhotoOut :=
  let m₄ := ms ++ [.info "Debug: Attempt 4 - /photos with file key"]
  let c₅ : Call := .altPhotoUpload "file" f.name (f.content.drop pos) auth
  match env 4 with
  | .exn e => exnOut idx f.name m₄ (cs ++ [c₅]) e
  | .resp s₅ t₅ j₅ =>
    let m₅ := m₄ ++ [.write ("Debug: Alt file upload status: " ++ toString s₅),
                     .write ("Debug: Alt file response: " ++ t₅)]
    if s₅ = 200 ∨ s₅ = 201 then
      match pyGet j₅ "id" .pynone with
      | .error e => exnOut idx f.name m₅ (cs ++ [c₅]) e
      | .ok pid =>
        if truthy pid then
          let c₆ : Call := .associatePhoto draftId pid auth
          match env 5 with
          | .exn e => exnOut idx f.name m₅ (cs ++ [c₅, c₆]) e
          | .resp s₆ _ _ =>
            if s₆ = 200 ∨ s₆ = 201 then
              { msgs := m₅ ++ [.success ("Debug: Alt file + associate worked for photo " ++
                  toString idx ++ "!")],
                calls := cs ++ [c₅, c₆], outcome := .okAttempt 4 }
            else failOut idx f.name m₅ (cs ++ [c₅, c₆])
        else failOut idx f.name m₅ (cs ++ [c₅])
    else failOut idx f.name m₅ (cs ++ [c₅])

/-- src/app.py lines 168-179: PUT `file.read()` (the bytes from position
`pos` on) to the presigned URL `u`; on success the photo is done, otherwise
fall through to attempt 4.  Env slot 3 is the PUT. -/
def presignPutPart (auth : String) (draftId : PyVal) (idx : Nat) (f : FileInput)
    (env : Nat → Outcome) (ms : List Msg) (cs : List Call) (pos : Nat)
    (u : PyVal) : PhotoOut :=
  let mp := ms ++ [.write ("Debug: Uploading to presigned URL: " ++ pyStr u)]
  let c₄ : Call := .presignPut u (f.content.drop pos)
  match env 3 with
  | .exn e => exnOut idx f.name mp (cs ++ [c₄]) e
  | .resp s₄ _ _ =>
    let mp₂ := mp ++ [.write ("Debug: Presign upload status: " ++ toString s₄)]
    if s₄ = 200 ∨ s₄ = 201 then
      { msgs := mp₂ ++ [.success ("Debug: Presigned upload worked for photo " ++
          toString idx ++ "!")],
        calls := cs ++ [c₄], outcome := .okAttempt 3 }
    else attempt4Part auth draftId idx f env mp₂ (cs ++ [c₄]) (f.content.length)

/-- src/app.py lines 117-210: the body of the photo loop for photo number
`idx` (1-based).  The stream is rewound (`seek(0)`), fully read once for the
size debug line, rewound again, and then consumed by attempt 1; it is never
rewound afterwards, so the position stays at the end of the buffer for all
later attempts.  Env slots: 0 = direct upload, 1 = file-key upload,
2 = presign request, 3 = presigned PUT, 4 = alt upload, 5 = associate. -/
def processPhoto (auth : String) (draftId : PyVal) (idx : Nat) (f : FileInput)
    (env : Nat → Outcome) : PhotoOut :=
  -- file.seek(0); size = len(file.read()); file.seek(0)
  let size := (f.content.drop 0).length
  let m₁ : List Msg := [.info ("Debug: Preparing upload for " ++ f.name),
    .write ("Debug: File size: " ++ toString size ++ " bytes"),
    .info "Debug: Attempt 1 - Direct upload to /my/listings/\x7bdraft_id\x7d/photos"]
  -- attempt 1 transmits the stream from position 0 and leaves it at the end
  let c₁ : Call := .photoMultipart draftId "photo" f.name (f.content.drop 0) auth
  let pos₁ := f.content.length
  match env 0 with
  | .exn e => exnOut idx f.name m₁ [c₁] e
  | .resp s₁ t₁ _ =>
    let m₂ := m₁ ++ [.write ("Debug: Direct upload status: " ++ toString s₁),
                     .write ("Debug: Direct upload response: " ++ t₁)]
    if s₁ = 200 ∨ s₁ = 201 then
      { msgs := m₂ ++ [.success ("Debug: Direct upload worked for photo " ++
          toString idx ++ "!")],
        calls := [c₁], outcome := .okAttempt 1 }
    else
      let m₃ := m₂ ++ [.info "Debug: Attempt 2 - Using file key instead of photo"]
      let c₂ : Call := .photoMultipart draftId "file" f.name (f.content.drop pos₁) auth
      let pos₂ := f.content.length
      match env 1 with
      | .exn e => exnOut idx f.name m₃ [c₁, c₂] e
      | .resp s₂ t₂ _ =>
        let m₄ := m₃ ++ [.write ("Debug: File key upload status: " ++ toString s₂),
                         .write ("Debug: File key response: " ++ t₂)]
        if s₂ = 200 ∨ s₂ = 201 then
          { msgs := m₄ ++ [.success ("Debug: File key upload worked for photo " ++
              toString idx ++ "!")],
            calls := [c₁, c₂], outcome := .okAttempt 2 }
        else
          let m₅ := m₄ ++ [.info "Debug: Attempt 3 - Presigned URL flow"]
          let c₃ : Call := .presignRequest draftId f.name auth
          match env 2 with
          | .exn e => exnOut idx f.name m₅ [c₁, c₂, c₃] e
          | .resp s₃ t₃ j₃ =>
            let m₆ := m₅ ++ [.write ("Debug: Presign request status: " ++ toString s₃),
                             .write ("Debug: Presign response: " ++ t₃)]
            if s₃ = 200 ∨ s₃ = 201 then
              -- upload_url = presign_data.get("url") or presign_data.get("upload_url")
              match pyGet j₃ "url" .pynone with
              | .error e => exnOut idx f.name m₆ [c₁, c₂, c₃] e
              | .ok u₁ =>
                if truthy u₁ then
                  presignPutPart auth draftId idx f env m₆ [c₁, c₂, c₃] pos₂ u₁
                else
                  match pyGet j₃ "upload_url" .pynone with
                  | .error e => exnOut idx f.name m₆ [c₁, c₂, c₃] e
                  | .ok u₂ =>
                    if truthy u₂ then
                      presignPutPart auth draftId idx f env m₆ [c₁, c₂, c₃] pos₂ u₂
                    else attempt4Part auth draftId idx f env m₆ [c₁, c₂, c₃] pos₂
            else attempt4Part auth draftId idx f env m₆ [c₁, c₂, c₃] pos₂

/-- src/app.py line 117: `for idx, file in enumerate(uploaded_files, start=1)`
with `i` the 0-based position; each photo draws its responses from its own
oracle `penv i`.  No state flows from one iteration to the next. -/
def photoStageAux (auth : String) (draftId : PyVal) (penv : Nat → Nat → Outcome)
    (i : Nat) : List FileInput → List PhotoOut
  | [] => []
  | f :: fs =>
    processPhoto auth draftId (i + 1) f (penv i) :: photoStageAux auth draftId penv (i + 1) fs

/-- The whole photo-upload loop over the supplied files. -/
def photoStage (auth : String) (draftId : PyVal) (files : List FileInput)
    (penv : Nat → Nat → Outcome) : List PhotoOut :=
  photoStageAux auth draftId penv 0 files

/-! ### The full run -/

/-- The network oracle for one run: the listing fetch response, the draft
creation response, and the per-photo oracles. -/
structure Env where
  fetch : Outcome
  draft : Outcome
  photos : Nat → Nat → Outcome

/-- Where a run ended: an input validation stop, a terminal HTTP failure
stop (`st.stop()`), an uncaught Python exception, or normal completion. -/
inductive RunStatus where
  | inputError
  | badUrl
  | fetchFailed
  | draftFailed
  | noDraftId
  | crashed (msg : String)
  | finished
  deriving DecidableEq

/-- Observable effect of one run: status feed, HTTP calls in order, final
state. -/
structure RunOut where
  msgs : List Msg
  calls : List Call
  status : RunStatus

/-- The Authorization header value built by `headers` / `upload_headers`
(src/app.py lines 34-46): the only place the token flows. -/
def authOf (token : String) : String := "Bearer " ++ token

/-- src/app.py lines 55-214: the full pipeline triggered by the Create Draft
button, from input validation to the final success banner. -/
def runPipeline (token url : String) (files : List FileInput) (env : Env) : RunOut :=
  if token = "" ∨ url = "" then
    { msgs := [.error "Please provide API token and listing URL."], calls := [],
      status := .inputError }
  else
    match extract_listing_id url with
    | none =>
      { msgs := [.error "Invalid Reverb listing URL."], calls := [], status := .badUrl }
    | some listingId =>
      let m₁ : List Msg := [.info ("Fetching listing " ++ listingId ++ " metadata...")]
      let c₁ : Call := .getListing listingId (authOf token)
      match env.fetch with
      | .exn e => { msgs := m₁, calls := [c₁], status := .crashed e }
      | .resp s₁ t₁ listing =>
        if s₁ ≠ 200 then
          { msgs := m₁ ++ [.error "Failed to fetch listing metadata.", .codeBlock t₁],
            calls := [c₁], status := .fetchFailed }
        else
          match buildPayload listing with
          | .error e => { msgs := m₁, calls := [c₁], status := .crashed e }
          | .ok payload =>
            let m₂ := m₁ ++ [.info "Creating draft listing..."]
            let c₂ : Call := .createDraft (authOf token) payload
            match env.draft with
            | .exn e => { msgs := m₂, calls := [c₁, c₂], status := .crashed e }
            | .resp s₂ t₂ draftData =>
              if ¬(s₂ = 200 ∨ s₂ = 201) then
                { msgs := m₂ ++ [.error "Draft creation failed.", .codeBlock t₂],
                  calls := [c₁, c₂], status := .draftFailed }
              else
                match resolveDraftId draftData with
                | .error e => { msgs := m₂, calls := [c₁, c₂], status := .crashed e }
                | .ok draftId =>
                  if ¬ truthy draftId then
                    { msgs := m₂ ++ [.error "Draft ID not returned by API."],
                      calls := [c₁, c₂], status := .noDraftId }
                  else
                    let m₃ := m₂ ++ [.success ("Draft created! ID: " ++ pyStr draftId)]
                    if files.isEmpty then
                      { msgs := m₃ ++ [.info "No photos uploaded. You can add them later from Reverb.",
                          .success "✅ Draft ready!"],
                        calls := [c₁, c₂], status := .finished }
                    else
                      let outs := photoStage (authOf token) draftId files env.photos
                      { msgs := m₃ ++ [.info ("Uploading " ++ toString files.length ++
                          " photo(s)...")] ++ (outs.map PhotoOut.msgs).flatten ++
                          [.success "✅ Draft ready!"],
                        calls := [c₁, c₂] ++ (outs.map PhotoOut.calls).flatten,
                        status := .finished }

/-- The bytes transmitted as file content by a call, when it carries any. -/
def fileBody : Call → Option (List Nat)
  | .photoMultipart _ _ _ b _ => some b
  | .presignPut _ b => some b
  | .altPhotoUpload _ _ b _ => some b
  | _ => none

/-- Calls issued by the photo-upload stage (as opposed to the listing fetch
and the draft creation). -/
def isPhotoCall : Call → Bool
  | .getListing _ _ => false
  | .createDraft _ _ => false
  | _ => true

/-- Property of every call a photo issues after its first upload attempt: it
carries no file bytes (the stream is exhausted) and it is a photo-stage
call. -/
def laterCallOk (c : Call) : Bool :=
  ((fileBody c).getD []).isEmpty && isPhotoCall c

/-- Is this call the listing fetch? -/
def isGetListing : Call → Bool
  | .getListing _ _ => true
  | _ => false

/-- Is this call the draft creation? -/
def isCreateDraft : Call → Bool
  | .createDraft _ _ => true
  | _ => false

/-- A photo oracle answering every request with success. -/
def envAllOk : Nat → Outcome := fun _ => .resp 200 "ok" (.pydict [])

/-- A photo oracle whose first (direct-upload) request fails with 404 and
whose later requests succeed. -/
def envFirst404 : Nat → Outcome :=
  fun n => if n = 0 then .resp 404 "Not Found" (.pydict []) else .resp 200 "ok" (.pydict [])

/-- Three concrete photos for witness runs. -/
def wfiles : List FileInput := [⟨"a.jpg", [1]⟩, ⟨"b.jpg", [2]⟩, ⟨"c.jpg", [3]⟩]

/-- A per-photo oracle where only photo 1 (0-based) raises a transport
exception. -/
def wenv : Nat → Nat → Outcome :=
  fun i => if i = 1 then (fun _ => .exn "connection reset") else envAllOk

/-- A per-photo oracle where every photo succeeds. -/
def wenv' : Nat → Nat → Outcome := fun _ => envAllOk

/-- A run environment in which fetch, draft creation, and photo uploads all
succeed. -/
def okRunEnv : Env :=
  { fetch := .resp 200 "listing" (.pydict [("title", .pystr "Amp")]),
    draft := .resp 201 "created" (.pydict [("id", .pyint 11)]),
    photos := fun _ _ => .resp 200 "ok" (.pydict []) }

/-- A run environment in which the listing fetch fails with a 404 whose body
does not mention the status code. -/
def fetch404Env : Env :=
  { fetch := .resp 404 "The requested listing does not exist." .pynone,
    draft := .resp 0 "" .pynone, photos := fun _ _ => .exn "unused" }

/-- The text carried by a status-feed entry. -/
def msgText : Msg → String
  | .info s => s
  | .error s => s
  | .success s => s
  | .write s => s
  | .codeBlock s => s

/-! ### Spec-side definitions

These follow the wording of the specification (not the code) and are used to
compare the code against the spec in refinement statements. -/

/-- The field list of the source price object: the value under `"price"`
when it is a dict, and the empty dict otherwise. -/
def priceFields (fs : List (String × PyVal)) : List (String × PyVal) :=
  match dictLookup fs "price" with
  | some (.pydict pfs) => pfs
  | _ => []

/-- Spec 4.2 / claim C1: the draft payload as the spec words it — title and
description copied verbatim with empty-string defaults, brand from `make`,
model from `model`, price amount/currency with `"1.00"` / `"USD"` defaults,
and the state fixed to `"draft"`. -/
def specDraftPayload (fs : List (String × PyVal)) : PyVal :=
  .pydict [("title", (dictLookup fs "title").getD (.pystr "")),
    ("description", (dictLookup fs "description").getD (.pystr "")),
    ("brand", (dictLookup fs "make").getD (.pystr "")),
    ("model", (dictLookup fs "model").getD (.pystr "")),
    ("price", .pydict [("amount", (dictLookup (priceFields fs) "amount").getD (.pystr "1.00")),
      ("currency", (dictLookup (priceFields fs) "currency").getD (.pystr "USD"))]),
    ("state", .pystr "draft")]

/-- Claim C2 as stated, reading the listing marker as the full substring
`reverb.com/item/` that the code checks for: the maximal leading digit run
of the path segment right after the marker, query string stripped; "not
found" when the marker is absent or no digits follow. -/
def claimedExtract (url : String) : Option String :=
  match splitFirst markerFull url.toList with
  | none => none
  | some (_, post) =>
    let seg := pySplitHead "?".toList post
    let digits := seg.takeWhile Char.isDigit
    if digits.isEmpty then none else some (String.mk digits)

/-- The amended reading of claim C2: the URL must contain
`reverb.com/item/`, but the digits are taken from the segment following the
first occurrence of `/item/` (the query strip and the second-occurrence cut
cannot change a leading digit run, since both `?` and `/` are
non-digits). -/
def specExtractFirstItem (url : String) : Option String :=
  if strContains url.toList markerFull then
    match splitFirst markerItem url.toList with
    | some (_, post) =>
      let digits := post.takeWhile Char.isDigit
      if digits.isEmpty then none else some (String.mk digits)
    | none => none
  else none

/-! ### Remote-copy photo mode (claim C6)

src/app.py implements only the local-upload mode; the remote-copy revision
of this repository is not under src/, so it is modelled from the spec
below. -/

/-- A request issued by the modelled remote-copy stage. -/
inductive RCall where
  | download (url : String)
  | upload (draftId : PyVal) (body : List Nat)

/-- Is this remote-copy request an upload attempt? -/
def RCall.isUpload : RCall → Bool
  | .download _ => false
  | .upload _ _ => true

/-- Observable effect of the modelled remote-copy stage. -/
structure RemoteOut where
  warnings : List String
  calls : List RCall
  results : List Bool

/-- Modelled from the spec: remote-copy mode (spec 4.3(a)) is not present in
src/app.py; per the spec, the stage enumerates the photo references of the
source listing in order; a reference whose download URL is the empty string
is skipped with a "missing URL" warning; otherwise the bytes are downloaded
from the URL and uploaded as multipart content to the per-draft photo
endpoint, recording per-photo success or failure and never aborting. -/
def remoteCopyAux (draftId : PyVal) (fetchBytes : String → List Nat)
    (env : Nat → Outcome) (i : Nat) : List String → RemoteOut
  | [] => ⟨[], [], []⟩
  | u :: us =>
    let rest := remoteCopyAux draftId fetchBytes env (i + 1) us
    if u = "" then
      ⟨("Photo " ++ toString (i + 1) ++ ": missing URL") :: rest.warnings,
        rest.calls, rest.results⟩
    else
      let bytes := fetchBytes u
      let ok := match env i with
        | .exn _ => false
        | .resp s _ _ => s == 200 || s == 201
      ⟨rest.warnings, .download u :: .upload draftId bytes :: rest.calls,
        ok :: rest.results⟩

/-- Observable effect of a remote-copy run after its draft was created. -/
structure RemoteRunOut where
  draftCreated : Bool
  warnings : List String
  calls : List RCall
  results : List Bool

/-- Modelled from the spec: a remote-copy run that has created its draft
runs the photo stage over all references to completion — per-photo failures
and skips are recorded, never propagated — and the draft still reports
created. -/
def runRemoteCopy (draftId : PyVal) (fetchBytes : String → List Nat)
    (env : Nat → Outcome) (refs : List String) : RemoteRunOut :=
  let r := remoteCopyAux draftId fetchBytes env 0 refs
  ⟨true, r.warnings, r.calls, r.results⟩

/-! ### General lemmas -/

theorem bindOk {α β : Type} (a : α) (f : α → Except String β) :
    (Except.ok a >>= f) = f a := rfl

theorem bindError {α β : Type} (e : String) (f : α → Except String β) :
    ((Except.error e : Except String α) >>= f) = Except.error e := rfl

theorem takeWhile_append_cons (p : Char → Bool) (a : List Char) (c : Char)
    (d : List Char) (hc : p c = false) :
    (a ++ c :: d).takeWhile p = a.takeWhile p := by
  induction a with
  | nil => simp [List.takeWhile, hc]
  | cons x xs ih =>
    simp only [List.cons_append, List.takeWhile]
    cases p x <;> simp [ih]

theorem splitFirst_append {sep s pre post : List Char}
    (h : splitFirst sep s = some (pre, post)) : s = pre ++ sep ++ post := by
  induction s generalizing pre post with
  | nil =>
    cases hsep : sep.isEmpty <;> simp_all [splitFirst, List.isEmpty_iff]
  | cons c cs ih =>
    by_cases hpre : sep.isPrefixOf (c :: cs)
    · simp only [splitFirst, hpre, if_true, Option.some.injEq, Prod.mk.injEq] at h
      obtain ⟨h1, h2⟩ := h
      subst h1
      subst h2
      obtain ⟨t, ht⟩ := List.isPrefixOf_iff_prefix.mp hpre
      rw [← ht]
      simp [List.drop_left]
    · simp only [splitFirst, hpre, Bool.false_eq_true, if_false] at h
      cases hrec : splitFirst sep cs with
      | none => rw [hrec] at h; exact absurd h (by simp)
      | some pp =>
        obtain ⟨pre₁, post₁⟩ := pp
        rw [hrec] at h
        simp only [Option.some.injEq, Prod.mk.injEq] at h
        obtain ⟨h1, h2⟩ := h
        subst h2
        rw [← h1]
        simp [ih hrec]

theorem strContains_middle (b x t : List Char) :
    strContains (x ++ b ++ t) b = true := by
  induction x with
  | nil =>
    simp only [List.nil_append]
    cases hbt : b ++ t with
    | nil =>
      obtain ⟨hb, ht⟩ := List.append_eq_nil.mp hbt
      subst hb; subst ht
      rfl
    | cons y ys =>
      show (b.isPrefixOf (y :: ys) || strContains ys b) = true
      have hp : b.isPrefixOf (y :: ys) = true :=
        List.isPrefixOf_iff_prefix.mpr ⟨t, hbt⟩
      simp [hp]
  | cons c xs ih =>
    show (b.isPrefixOf (c :: (xs ++ b ++ t)) || strContains (xs ++ b ++ t) b) = true
    rw [ih]
    simp

theorem contains_append_right (hay a b : List Char)
    (h : strContains hay (a ++ b) = true) : strContains hay b = true := by
  induction hay with
  | nil =>
    simp only [strContains, List.isEmpty_iff] at h ⊢
    exact (List.append_eq_nil.mp h).2
  | cons c tl ih =>
    have h : ((a ++ b).isPrefixOf (c :: tl) || strContains tl (a ++ b)) = true := h
    rcases Bool.or_eq_true_iff.mp h with h | h
    · obtain ⟨t, ht⟩ := List.isPrefixOf_iff_prefix.mp h
      rw [← ht]
      exact strContains_middle b a t
    · show (b.isPrefixOf (c :: tl) || strContains tl b) = true
      rw [ih h]
      simp

theorem contains_iff_splitFirst (hay sep : List Char) :
    strContains hay sep = (splitFirst sep hay).isSome := by
  induction hay with
  | nil => by_cases h : sep.isEmpty <;> simp [strContains, splitFirst, h]
  | cons c tl ih =>
    by_cases h : sep.isPrefixOf (c :: tl)
    · simp [strContains, splitFirst, h]
    · have h₀ : sep.isPrefixOf (c :: tl) = false := by simp [h]
      show (sep.isPrefixOf (c :: tl) || strContains tl sep) = _
      rw [h₀, ih]
      show _ = (splitFirst sep (c :: tl)).isSome
      simp only [splitFirst, h₀, Bool.false_eq_true, if_false]
      cases splitFirst sep tl with
      | none => simp
      | some p => simp

theorem takeWhile_pySplitHead_q (s : List Char) :
    (pySplitHead "?".toList s).takeWhile Char.isDigit = s.takeWhile Char.isDigit := by
  unfold pySplitHead
  cases hq : splitFirst "?".toList s with
  | none => rfl
  | some p =>
    obtain ⟨pre, post⟩ := p
    show pre.takeWhile Char.isDigit = s.takeWhile Char.isDigit
    rw [splitFirst_append hq, List.append_assoc]
    exact (takeWhile_append_cons Char.isDigit pre '?' post (by decide)).symm

theorem markerFull_decomp : markerFull = "reverb.com".toList ++ markerItem := by decide

/-! ### Photo-loop structure lemmas -/

theorem attempt4Part_calls (auth : String) (d : PyVal) (idx : Nat)
    (f : FileInput) (env : Nat → Outcome) (ms : List Msg) (cs : List Call) :
    ∃ extra, (attempt4Part auth d idx f env ms cs f.content.length).calls = cs ++ extra ∧
      1 ≤ extra.length ∧ extra.length ≤ 2 ∧ extra.all laterCallOk = true := by
  unfold attempt4Part
  simp only [List.drop_length]
  repeat' split
  all_goals exact ⟨_, rfl, by simp [laterCallOk, fileBody, isPhotoCall]⟩

theorem presignPutPart_calls (auth : String) (d : PyVal) (idx : Nat)
    (f : FileInput) (env : Nat → Outcome) (ms : List Msg) (cs : List Call) (u : PyVal) :
    ∃ extra, (presignPutPart auth d idx f env ms cs f.content.length u).calls = cs ++ extra ∧
      1 ≤ extra.length ∧ extra.length ≤ 3 ∧ extra.all laterCallOk = true := by
  unfold presignPutPart
  simp only [List.drop_length]
  repeat' split
  · exact ⟨_, rfl, by simp [laterCallOk, fileBody, isPhotoCall]⟩
  · exact ⟨_, rfl, by simp [laterCallOk, fileBody, isPhotoCall]⟩
  · obtain ⟨extra, he, h1, h2, h3⟩ :=
      attempt4Part_calls auth d idx f env _ (cs ++ [.presignPut u []])
    refine ⟨[Call.presignPut u []] ++ extra, ?_, by simp, ?_, ?_⟩
    · rw [he, List.append_assoc]
    · simp [List.length_append]
      omega
    · simp only [List.all_append, Bool.and_eq_true] at h3 ⊢
      exact ⟨by simp [laterCallOk, fileBody, isPhotoCall], h3⟩

theorem processPhoto_calls_exn (auth : String) (d : PyVal) (idx : Nat)
    (f : FileInput) (env : Nat → Outcome) (e : String)
    (h0 : env 0 = .exn e) :
    (processPhoto auth d idx f env).calls =
      [.photoMultipart d "photo" f.name f.content auth] := by
  unfold processPhoto
  simp only [h0, List.drop_zero]
  rfl

theorem processPhoto_calls_ok (auth : String) (d : PyVal) (idx : Nat)
    (f : FileInput) (env : Nat → Outcome) (s : Nat) (t : String) (j : PyVal)
    (h0 : env 0 = .resp s t j) (hs : s = 200 ∨ s = 201) :
    (processPhoto auth d idx f env).calls =
      [.photoMultipart d "photo" f.name f.content auth] := by
  unfold processPhoto
  simp only [h0, List.drop_zero]
  rw [if_pos hs]

theorem processPhoto_calls_fail (auth : String) (d : PyVal) (idx : Nat)
    (f : FileInput) (env : Nat → Outcome) (s : Nat) (t : String) (j : PyVal)
    (h0 : env 0 = .resp s t j) (hs : ¬(s = 200 ∨ s = 201)) :
    ∃ rest, (processPhoto auth d idx f env).calls =
        .photoMultipart d "photo" f.name f.content auth ::
        .photoMultipart d "file" f.name [] auth :: rest ∧
      rest.length ≤ 4 ∧
      (Call.photoMultipart d "file" f.name [] auth :: rest).all laterCallOk = true := by
  unfold processPhoto
  simp only [h0, List.drop_zero, List.drop_length]
  rw [if_neg hs]
  repeat' split
  all_goals first
    | exact ⟨[], rfl, by simp, by simp [laterCallOk, fileBody, isPhotoCall]⟩
    | exact ⟨[.presignRequest d f.name auth], rfl, by simp,
        by simp [laterCallOk, fileBody, isPhotoCall]⟩
    | (obtain ⟨extra, he, hl1, hl2, hall⟩ := presignPutPart_calls auth d idx f env _ _ _
       refine ⟨Call.presignRequest d f.name auth :: extra, by rw [he]; rfl, ?_, ?_⟩
       · simp only [List.length_cons]
         omega
       · simp [laterCallOk, fileBody, isPhotoCall, hall])
    | (obtain ⟨extra, he, hl1, hl2, hall⟩ := attempt4Part_calls auth d idx f env _ _
       refine ⟨Call.presignRequest d f.name auth :: extra, by rw [he]; rfl, ?_, ?_⟩
       · simp only [List.length_cons]
         omega
       · simp [laterCallOk, fileBody, isPhotoCall, hall])

theorem processPhoto_calls_bounds (auth : String) (d : PyVal) (idx : Nat)
    (f : FileInput) (env : Nat → Outcome) :
    1 ≤ (processPhoto auth d idx f env).calls.length ∧
    (processPhoto auth d idx f env).calls.length ≤ 6 := by
  cases h0 : env 0 with
  | exn e => rw [processPhoto_calls_exn auth d idx f env e h0]; simp
  | resp s t j =>
    by_cases hs : s = 200 ∨ s = 201
    · rw [processPhoto_calls_ok auth d idx f env s t j h0 hs]; simp
    · obtain ⟨rest, he, hl, hall⟩ := processPhoto_calls_fail auth d idx f env s t j h0 hs
      rw [he]
      simp only [List.length_cons]
      omega

theorem processPhoto_calls_photoOnly (auth : String) (d : PyVal) (idx : Nat)
    (f : FileInput) (env : Nat → Outcome) :
    (processPhoto auth d idx f env).calls.all isPhotoCall = true := by
  cases h0 : env 0 with
  | exn e => rw [processPhoto_calls_exn auth d idx f env e h0]; rfl
  | resp s t j =>
    by_cases hs : s = 200 ∨ s = 201
    · rw [processPhoto_calls_ok auth d idx f env s t j h0 hs]; rfl
    · obtain ⟨rest, he, hl, hall⟩ := processPhoto_calls_fail auth d idx f env s t j h0 hs
      rw [he]
      simp only [List.all_cons, Bool.and_eq_true]
      refine ⟨rfl, rfl, ?_⟩
      simp only [List.all_eq_true, laterCallOk, Bool.and_eq_true] at hall
      simp only [List.all_eq_true]
      intro c hc
      exact (hall c (List.mem_cons_of_mem _ hc)).2

theorem photoStageAux_length (auth : String) (d : PyVal)
    (penv : Nat → Nat → Outcome) (i : Nat) (files : List FileInput) :
    (photoStageAux auth d penv i files).length = files.length := by
  induction files generalizing i with
  | nil => rfl
  | cons f fs ih => simp [photoStageAux, ih]

theorem photoStageAux_getElem (auth : String) (d : PyVal)
    (penv : Nat → Nat → Outcome) (i j : Nat) (files : List FileInput) :
    (photoStageAux auth d penv i files)[j]? =
      (files[j]?).map (fun f => processPhoto auth d (i + j + 1) f (penv (i + j))) := by
  induction files generalizing i j with
  | nil => simp [photoStageAux]
  | cons f fs ih =>
    cases j with
    | zero => simp [photoStageAux]
    | succ j =>
      simp only [photoStageAux, List.getElem?_cons_succ]
      rw [ih (i + 1) j]
      rw [show i + 1 + j = i + (j + 1) from by omega]

theorem photoStageAux_countP_zero (auth : String) (d : PyVal)
    (penv : Nat → Nat → Outcome) (i : Nat) (files : List FileInput)
    (p : Call → Bool) (hp : ∀ c, isPhotoCall c = true → p c = false) :
    (((photoStageAux auth d penv i files).map PhotoOut.calls).flatten).countP p = 0 := by
  induction files generalizing i with
  | nil => rfl
  | cons f fs ih =>
    simp only [photoStageAux, List.map_cons, List.flatten_cons, List.countP_append]
    rw [ih (i + 1)]
    have hall := processPhoto_calls_photoOnly auth d (i + 1) f (penv i)
    rw [List.all_eq_true] at hall
    simp only [Nat.add_zero]
    rw [List.countP_eq_zero]
    intro c hc
    simp [hp c (hall c hc)]

theorem isGetListing_of_photo (c : Call) (h : isPhotoCall c = true) :
    isGetListing c = false := by
  cases c <;> simp_all [isPhotoCall, isGetListing]

theorem isCreateDraft_of_photo (c : Call) (h : isPhotoCall c = true) :
    isCreateDraft c = false := by
  cases c <;> simp_all [isPhotoCall, isCreateDraft]

theorem runPipeline_countP (token url : String) (files : List FileInput) (env : Env) :
    ((runPipeline token url files env).calls.countP isGetListing ≤ 1 ∧
      (runPipeline token url files env).calls.countP isCreateDraft ≤ 1) ∧
    ((runPipeline token url files env).status = .finished →
      (runPipeline token url files env).calls.countP isGetListing = 1 ∧
      (runPipeline token url files env).calls.countP isCreateDraft = 1) := by
  unfold runPipeline
  repeat' split
  all_goals
    simp [List.countP_cons, List.countP_append, isGetListing, isCreateDraft, photoStage,
      photoStageAux_countP_zero _ _ _ _ _ isGetListing isGetListing_of_photo,
      photoStageAux_countP_zero _ _ _ _ _ isCreateDraft isCreateDraft_of_photo]

/-! ### Terminal-failure branch lemmas -/

theorem c7_fetch_branch (token url : String) (files : List FileInput) (env : Env)
    (lid : String) (s : Nat) (t : String) (listing : PyVal)
    (hin : ¬(token = "" ∨ url = "")) (hlid : extract_listing_id url = some lid)
    (hf : env.fetch = .resp s t listing) (hs : s ≠ 200) :
    runPipeline token url files env =
      { msgs := [.info ("Fetching listing " ++ lid ++ " metadata..."),
          .error "Failed to fetch listing metadata.", .codeBlock t],
        calls := [.getListing lid (authOf token)], status := .fetchFailed } := by
  unfold runPipeline
  rw [if_neg hin]
  simp only [hlid, hf]
  rw [if_pos hs]
  rfl

theorem c7_draft_branch (token url : String) (files : List FileInput) (env : Env)
    (lid : String) (t : String) (listing : PyVal) (payload : PyVal)
    (s₂ : Nat) (t₂ : String) (dd : PyVal)
    (hin : ¬(token = "" ∨ url = "")) (hlid : extract_listing_id url = some lid)
    (hf : env.fetch = .resp 200 t listing) (hb : buildPayload listing = .ok payload)
    (hd : env.draft = .resp s₂ t₂ dd) (hs₂ : ¬(s₂ = 200 ∨ s₂ = 201)) :
    runPipeline token url files env =
      { msgs := [.info ("Fetching listing " ++ lid ++ " metadata..."),
          .info "Creating draft listing...",
          .error "Draft creation failed.", .codeBlock t₂],
        calls := [.getListing lid (authOf token), .createDraft (authOf token) payload],
        status := .draftFailed } := by
  unfold runPipeline
  rw [if_neg hin]
  simp only [hlid, hf, hb, hd]
  rw [if_neg (by simp), if_pos hs₂]
  rfl

/-! ### Token non-interference lemmas -/

theorem attempt4Part_msgs (a₁ a₂ : String) (d : PyVal) (idx : Nat) (f : FileInput)
    (env : Nat → Outcome) (ms : List Msg) (cs₁ cs₂ : List Call) (pos₁ pos₂ : Nat) :
    (attempt4Part a₁ d idx f env ms cs₁ pos₁).msgs =
    (attempt4Part a₂ d idx f env ms cs₂ pos₂).msgs := by
  unfold attempt4Part
  repeat' split
  all_goals rfl

theorem presignPutPart_msgs (a₁ a₂ : String) (d : PyVal) (idx : Nat) (f : FileInput)
    (env : Nat → Outcome) (ms : List Msg) (cs₁ cs₂ : List Call) (pos₁ pos₂ : Nat)
    (u : PyVal) :
    (presignPutPart a₁ d idx f env ms cs₁ pos₁ u).msgs =
    (presignPutPart a₂ d idx f env ms cs₂ pos₂ u).msgs := by
  unfold presignPutPart
  repeat' split
  all_goals first
    | rfl
    | apply attempt4Part_msgs

theorem processPhoto_msgs (a₁ a₂ : String) (d : PyVal) (idx : Nat)
    (f : FileInput) (env : Nat → Outcome) :
    (processPhoto a₁ d idx f env).msgs = (processPhoto a₂ d idx f env).msgs := by
  unfold processPhoto
  repeat' split
  all_goals first
    | rfl
    | apply presignPutPart_msgs
    | apply attempt4Part_msgs

theorem photoStage_msgs (a₁ a₂ : String) (d : PyVal) (files : List FileInput)
    (penv : Nat → Nat → Outcome) :
    (photoStage a₁ d files penv).map PhotoOut.msgs =
    (photoStage a₂ d files penv).map PhotoOut.msgs := by
  unfold photoStage
  generalize 0 = i
  induction files generalizing i with
  | nil => rfl
  | cons f fs ih =>
    simp only [photoStageAux, List.map_cons]
    rw [processPhoto_msgs a₁ a₂, ih]

/-! ### Remote-copy stage lemma -/

theorem remoteCopyAux_spec (draftId : PyVal) (fetchBytes : String → List Nat)
    (env : Nat → Outcome) (i : Nat) (refs : List String) :
    (remoteCopyAux draftId fetchBytes env i refs).warnings.length =
      (refs.filter (fun u => u == "")).length ∧
    ((remoteCopyAux draftId fetchBytes env i refs).calls.filter RCall.isUpload).length =
      (refs.filter (fun u => !(u == ""))).length ∧
    (remoteCopyAux draftId fetchBytes env i refs).results.length =
      (refs.filter (fun u => !(u == ""))).length ∧
    (∀ u, u ∈ refs → ¬u = "" →
      RCall.download u ∈ (remoteCopyAux draftId fetchBytes env i refs).calls ∧
      RCall.upload draftId (fetchBytes u) ∈ (remoteCopyAux draftId fetchBytes env i refs).calls) := by
  induction refs generalizing i with
  | nil => exact ⟨rfl, rfl, rfl, by simp⟩
  | cons u us ih =>
    obtain ⟨ih1, ih2, ih3, ih4⟩ := ih (i + 1)
    by_cases hu : u = ""
    · subst hu
      simp only [remoteCopyAux, if_pos rfl]
      refine ⟨?_, ?_, ?_, ?_⟩
      · simp only [List.filter_cons, List.length_cons]
        simp [ih1]
      · simp only [List.filter_cons]
        simp [ih2]
      · simp only [List.filter_cons]
        simp [ih3]
      · intro v hv hne
        rcases List.mem_cons.mp hv with rfl | hv
        · exact absurd rfl hne
        · exact ih4 v hv hne
    · simp only [remoteCopyAux, if_neg hu]
      refine ⟨?_, ?_, ?_, ?_⟩
      · simp only [List.filter_cons]
        simp [hu, ih1]
      · simp only [List.filter_cons, List.length_cons]
        simp [hu, RCall.isUpload, ih2]
      · simp only [List.length_cons]
        simp [hu, ih3]
      · intro v hv hne
        rcases List.mem_cons.mp hv with rfl | hv
        · exact ⟨List.mem_cons_self _ _, List.mem_cons_of_mem _ (List.mem_cons_self _ _)⟩
        · have := ih4 v hv hne
          exact ⟨List.mem_cons_of_mem _ (List.mem_cons_of_mem _ this.1),
            List.mem_cons_of_mem _ (List.mem_cons_of_mem _ this.2)⟩

/-! ### Claim C2 -/

/-- C2, amended: `extract_listing_id` gates on the substring
`reverb.com/item/` but splits on `/item/`; for every URL containing
`reverb.com/item/` it returns the maximal leading ASCII digit run of the
segment following the first occurrence of `/item/` (the query strip and the
cut at a second `/item/` occurrence cannot change that run, `?` and `/`
being non-digits), `none` when that run is empty; for every URL lacking
`reverb.com/item/` it returns `none`, even when the URL contains `/item/`
followed by digits. -/
theorem c2_extract_amended (url : String) :
    extract_listing_id url = specExtractFirstItem url := by
  unfold extract_listing_id specExtractFirstItem
  by_cases h : strContains url.toList markerFull = true
  · simp only [h, if_true]
    have hc : strContains url.toList markerItem = true := by
      refine contains_append_right _ ("reverb.com".toList) _ ?_
      rw [← markerFull_decomp]
      exact h
    have hsome : (splitFirst markerItem url.toList).isSome := by
      rw [← contains_iff_splitFirst]
      exact hc
    obtain ⟨⟨pre, post⟩, hsp⟩ := Option.isSome_iff_exists.mp hsome
    unfold pySplitSecond
    rw [hsp]
    cases hsp2 : splitFirst markerItem post with
    | none =>
      simp only [hsp2]
      rw [takeWhile_pySplitHead_q post]
    | some p₂ =>
      obtain ⟨pre₂, post₂⟩ := p₂
      simp only [hsp2]
      rw [takeWhile_pySplitHead_q pre₂]
      have hpp : List.takeWhile Char.isDigit post = List.takeWhile Char.isDigit pre₂ := by
        rw [splitFirst_append hsp2, List.append_assoc]
        exact takeWhile_append_cons Char.isDigit pre₂ '/' ("item/".toList ++ post₂) (by decide)
      rw [hpp]
  · rw [if_neg h, if_neg h]

/-- C2 counterexample.  First input: the URL contains the marker
`reverb.com/item/` followed by the digits `123`, so the claim demands
`"123"`, but the code splits at the earlier `/item/` occurrence and returns
`"9"`.  Second input: the URL contains `/item/` directly followed by the
digits `123` (so under the marker-is-`/item/` reading the claim demands
`"123"`), but the code returns `none` because `reverb.com/item/` is
absent. -/
theorem c2_extract_counterexample :
    (claimedExtract "https://a/item/9reverb.com/item/123" = some "123" ∧
      extract_listing_id "https://a/item/9reverb.com/item/123" = some "9") ∧
    (splitFirst markerItem "https://example.com/item/123".toList =
        some ("https://example.com".toList, "123".toList) ∧
      extract_listing_id "https://example.com/item/123" = none) := by
  decide

/-! ### Claim C1 -/

/-- C1: for every fetched listing object whose `price` entry is absent or a
JSON object, the draft payload is exactly the spec's deterministic
construction: title and description copied verbatim with empty-string
defaults, brand from `make`, model from `model`, price amount and currency
with `"1.00"` / `"USD"` defaults (in particular when the price object is
absent), and state always `"draft"` regardless of the source state. -/
theorem c1_draft_payload (fs : List (String × PyVal))
    (hp : dictLookup fs "price" = none ∨
      ∃ pfs, dictLookup fs "price" = some (.pydict pfs)) :
    buildPayload (.pydict fs) = .ok (specDraftPayload fs) := by
  rcases hp with hp | ⟨pfs, hp⟩ <;>
    simp [buildPayload, pyGet, specDraftPayload, priceFields, hp, bindOk]

/-- C1 witness: a listing carrying only a title (price absent) produces the
spec payload. -/
theorem c1_draft_payload_witness :
    buildPayload (.pydict [("title", .pystr "Amp")]) =
      .ok (specDraftPayload [("title", .pystr "Amp")]) :=
  c1_draft_payload [("title", .pystr "Amp")] (Or.inl rfl)

/-! ### Claim C4 -/

/-- C4, amended: the top-level `id` is preferred only when it is truthy;
when it is absent or falsy the nested `listing.id` is used (Python `or`
semantics); when neither key is present the resolved value is `None`, which
is falsy, so the run takes the `Draft ID not returned by API.` stop
branch. -/
theorem c4_draft_id_amended :
    (∀ fs a, dictLookup fs "id" = some a → truthy a = true →
      resolveDraftId (.pydict fs) = .ok a) ∧
    (∀ fs lfs, truthy ((dictLookup fs "id").getD .pynone) = false →
      dictLookup fs "listing" = some (.pydict lfs) →
      resolveDraftId (.pydict fs) = .ok ((dictLookup lfs "id").getD .pynone)) ∧
    (∀ fs, dictLookup fs "id" = none → dictLookup fs "listing" = none →
      resolveDraftId (.pydict fs) = .ok .pynone ∧ truthy .pynone = false) := by
  refine ⟨?_, ?_, ?_⟩
  · intro fs a h ht
    simp [resolveDraftId, pyGet, h, ht, bindOk]
  · intro fs lfs hf hl
    simp [resolveDraftId, pyGet, hf, hl, bindOk]
  · intro fs h hl
    simp [resolveDraftId, pyGet, h, hl, truthy, bindOk, dictLookup]

/-- C4 counterexample: a response carrying both a top-level `id` (the empty
string, a present but falsy value) and a nested `listing.id`; the claim
demands the top-level field be preferred whenever both are present, but the
code resolves to the nested `5`. -/
theorem c4_draft_id_counterexample :
    dictLookup [("id", PyVal.pystr ""), ("listing", PyVal.pydict [("id", PyVal.pyint 5)])] "id" =
      some (.pystr "") ∧
    resolveDraftId (.pydict [("id", .pystr ""), ("listing", .pydict [("id", .pyint 5)])]) =
      .ok (.pyint 5) :=
  ⟨rfl, rfl⟩

/-- C4 witness: the three amended branches at concrete responses. -/
theorem c4_draft_id_witness :
    resolveDraftId (.pydict [("id", PyVal.pyint 7)]) = .ok (.pyint 7) ∧
    resolveDraftId (.pydict [("listing", PyVal.pydict [("id", PyVal.pyint 9)])]) = .ok (.pyint 9) ∧
    resolveDraftId (.pydict []) = .ok .pynone :=
  ⟨c4_draft_id_amended.1 [("id", .pyint 7)] (.pyint 7) rfl rfl,
   c4_draft_id_amended.2.1 [("listing", .pydict [("id", .pyint 9)])] [("id", .pyint 9)] rfl rfl,
   (c4_draft_id_amended.2.2 [] rfl rfl).1⟩

/-! ### Claim C10 -/

/-- C10, amended: when the fetched listing maps `price` to JSON null, the
payload construction raises `AttributeError` (`.get` on `None`) instead of
applying the defaults; the whole-price defaults apply when the key is
absent, and the per-field defaults also apply when a present price object
merely lacks `amount` or `currency`. -/
theorem c10_price_null_amended (fs : List (String × PyVal))
    (h : dictLookup fs "price" = some .pynone) :
    buildPayload (.pydict fs) =
      .error "AttributeError: NoneType object has no attribute get" := by
  simp [buildPayload, pyGet, h, bindOk, bindError]

/-- C10 counterexample to "defaults are applied only when the price key is
entirely absent": a listing whose `price` key is present (an empty object)
still gets both defaults. -/
theorem c10_price_null_counterexample :
    dictLookup [("price", PyVal.pydict [])] "price" = some (.pydict []) ∧
    buildPayload (.pydict [("price", .pydict [])]) =
      .ok (.pydict [("title", .pystr ""), ("description", .pystr ""),
        ("brand", .pystr ""), ("model", .pystr ""),
        ("price", .pydict [("amount", .pystr "1.00"), ("currency", .pystr "USD")]),
        ("state", .pystr "draft")]) :=
  ⟨rfl, rfl⟩

/-- C10 witness: the null-price crash at a concrete listing. -/
theorem c10_price_null_witness :
    buildPayload (.pydict [("price", PyVal.pynone)]) =
      .error "AttributeError: NoneType object has no attribute get" :=
  c10_price_null_amended [("price", .pynone)] rfl

/-! ### Claim C3 -/

/-- C3: the photo loop yields exactly one outcome per supplied photo, in
input order (entry `j` is exactly the processing of photo `j` against its
own responses), and entry `j` does not depend on what happened to any other
photo `k` — a failure or exception on photo `k` never short-circuits the
loop. -/
theorem c3_photo_loop (auth : String) (d : PyVal) (files : List FileInput)
    (penv penv' : Nat → Nat → Outcome) (k : Nat)
    (h : ∀ i, i ≠ k → penv i = penv' i) :
    (photoStage auth d files penv).length = files.length ∧
    (∀ j f, files[j]? = some f →
      (photoStage auth d files penv)[j]? =
        some (processPhoto auth d (j + 1) f (penv j))) ∧
    (∀ j, j ≠ k →
      (photoStage auth d files penv)[j]? = (photoStage auth d files penv')[j]?) := by
  refine ⟨photoStageAux_length auth d penv 0 files, ?_, ?_⟩
  · intro j f hf
    rw [photoStage, photoStageAux_getElem, Nat.zero_add, hf]
    rfl
  · intro j hj
    rw [photoStage, photoStage, photoStageAux_getElem, photoStageAux_getElem,
      Nat.zero_add, h j hj]

/-- C3 witness: three photos where photo 1 (0-based) raises a transport
exception; the loop still yields three outcomes and photo 2 is processed
exactly as in the run where photo 1 succeeds. -/
theorem c3_photo_loop_witness :
    (photoStage "Bearer tok" (.pyint 3) wfiles wenv).length = 3 ∧
    (photoStage "Bearer tok" (.pyint 3) wfiles wenv)[2]? =
      (photoStage "Bearer tok" (.pyint 3) wfiles wenv')[2]? := by
  have h := c3_photo_loop "Bearer tok" (.pyint 3) wfiles wenv wenv' 1
    (fun i hi => by simp [wenv, wenv', hi])
  exact ⟨h.1.trans rfl, h.2.2 2 (by decide)⟩

/-! ### Claim C5 -/

/-- C5, amended: the listing fetch and the draft creation each issue at most
one HTTP call per run (exactly one when the run finishes, so neither is ever
retried); but a photo-upload step is exactly one HTTP call only when its
first attempt succeeds — a photo whose earlier attempts fail issues up to
six calls (two direct multipart attempts, a presign request, a presigned
PUT, a standalone upload and an association call). -/
theorem c5_call_counts_amended :
    (∀ auth d idx f env,
      1 ≤ (processPhoto auth d idx f env).calls.length ∧
      (processPhoto auth d idx f env).calls.length ≤ 6) ∧
    (∀ auth d idx f env s t j, env 0 = .resp s t j → (s = 200 ∨ s = 201) →
      (processPhoto auth d idx f env).calls =
        [.photoMultipart d "photo" f.name f.content auth]) ∧
    (∀ token url files env,
      (runPipeline token url files env).calls.countP isGetListing ≤ 1 ∧
      (runPipeline token url files env).calls.countP isCreateDraft ≤ 1 ∧
      ((runPipeline token url files env).status = .finished →
        (runPipeline token url files env).calls.countP isGetListing = 1 ∧
        (runPipeline token url files env).calls.countP isCreateDraft = 1)) :=
  ⟨processPhoto_calls_bounds,
   processPhoto_calls_ok,
   fun token url files env =>
     ⟨(runPipeline_countP token url files env).1.1,
      (runPipeline_countP token url files env).1.2,
      (runPipeline_countP token url files env).2⟩⟩

/-- C5 counterexample: a photo whose direct upload returns 404 and whose
file-key fallback succeeds issues two HTTP calls for its single logical
photo-upload step, not exactly one as the claim states. -/
theorem c5_call_counts_counterexample :
    (processPhoto "Bearer T" (.pyint 1) 1 ⟨"a.jpg", [7]⟩ envFirst404).calls.length = 2 ∧
    ¬((processPhoto "Bearer T" (.pyint 1) 1 ⟨"a.jpg", [7]⟩ envFirst404).calls.length = 1) := by
  decide

/-- C5 witness: a photo whose first attempt succeeds issues exactly one
call, and a finished run has exactly one fetch call and one draft-creation
call. -/
theorem c5_call_counts_witness :
    (processPhoto "Bearer T" (.pyint 1) 1 ⟨"a.jpg", [7]⟩ envAllOk).calls =
      [.photoMultipart (.pyint 1) "photo" "a.jpg" [7] "Bearer T"] ∧
    (runPipeline "T" "https://reverb.com/item/123" [⟨"a.jpg", [7]⟩] okRunEnv).calls.countP
      isGetListing = 1 ∧
    (runPipeline "T" "https://reverb.com/item/123" [⟨"a.jpg", [7]⟩] okRunEnv).calls.countP
      isCreateDraft = 1 :=
  ⟨c5_call_counts_amended.2.1 "Bearer T" (.pyint 1) 1 ⟨"a.jpg", [7]⟩ envAllOk
      200 "ok" (.pydict []) rfl (Or.inl rfl),
   ((c5_call_counts_amended.2.2 "T" "https://reverb.com/item/123" [⟨"a.jpg", [7]⟩] okRunEnv).2.2
      (by decide)).1,
   ((c5_call_counts_amended.2.2 "T" "https://reverb.com/item/123" [⟨"a.jpg", [7]⟩] okRunEnv).2.2
      (by decide)).2⟩

/-! ### Claim C9 -/

/-- C9: when the first multipart upload attempt of a photo comes back with a
non-success status, the fallback attempts that follow exist and every one of
them transmits an empty file body — attempt 1 reads the stream to its end
and nothing ever rewinds it — so only the first attempt carries the photo
bytes. -/
theorem c9_stream_not_rewound (auth : String) (d : PyVal) (idx : Nat)
    (f : FileInput) (env : Nat → Outcome) (s : Nat) (t : String) (j : PyVal)
    (h0 : env 0 = .resp s t j) (hs : ¬(s = 200 ∨ s = 201)) :
    ∃ rest, (processPhoto auth d idx f env).calls =
        .photoMultipart d "photo" f.name f.content auth :: rest ∧
      rest ≠ [] ∧
      rest.all (fun c => ((fileBody c).getD []).isEmpty) = true := by
  obtain ⟨rest, he, hl, hall⟩ := processPhoto_calls_fail auth d idx f env s t j h0 hs
  refine ⟨Call.photoMultipart d "file" f.name [] auth :: rest, he, by simp, ?_⟩
  simp only [List.all_eq_true, laterCallOk, Bool.and_eq_true] at hall
  simp only [List.all_eq_true]
  intro c hc
  exact (hall c hc).1

/-- C9 witness: a concrete photo with bytes `[7, 8]` whose direct upload
gets a 404 — the first call carries the bytes, the fallback calls carry
none. -/
theorem c9_stream_not_rewound_witness :
    ∃ rest, (processPhoto "Bearer T" (.pyint 1) 1 ⟨"a.jpg", [7, 8]⟩ envFirst404).calls =
        .photoMultipart (.pyint 1) "photo" "a.jpg" [7, 8] "Bearer T" :: rest ∧
      rest ≠ [] ∧
      rest.all (fun c => ((fileBody c).getD []).isEmpty) = true :=
  c9_stream_not_rewound "Bearer T" (.pyint 1) 1 ⟨"a.jpg", [7, 8]⟩ envFirst404
    404 "Not Found" (.pydict []) rfl (by decide)

/-! ### Claim C6 -/

/-- C6 (modelled from the spec, remote-copy mode being absent from
src/app.py): the remote-copy stage walks the photo references in order; a
reference with an empty download URL is skipped with exactly one missing-URL
warning; every other reference has its bytes downloaded from its URL and
uploaded to the per-draft endpoint, with one recorded per-photo result; the
stage never aborts, so the draft still reports created.  In particular, for
two references of which one has an empty URL, exactly one upload attempt
occurs and one warning is recorded. -/
theorem c6_remote_copy (draftId : PyVal) (fetchBytes : String → List Nat)
    (env : Nat → Outcome) (refs : List String) :
    (runRemoteCopy draftId fetchBytes env refs).draftCreated = true ∧
    (runRemoteCopy draftId fetchBytes env refs).warnings.length =
      (refs.filter (fun u => u == "")).length ∧
    ((runRemoteCopy draftId fetchBytes env refs).calls.filter RCall.isUpload).length =
      (refs.filter (fun u => !(u == ""))).length ∧
    (runRemoteCopy draftId fetchBytes env refs).results.length =
      (refs.filter (fun u => !(u == ""))).length ∧
    (∀ u, u ∈ refs → ¬u = "" →
      RCall.download u ∈ (runRemoteCopy draftId fetchBytes env refs).calls ∧
      RCall.upload draftId (fetchBytes u) ∈ (runRemoteCopy draftId fetchBytes env refs).calls) :=
  ⟨rfl, (remoteCopyAux_spec draftId fetchBytes env 0 refs).1,
    (remoteCopyAux_spec draftId fetchBytes env 0 refs).2.1,
    (remoteCopyAux_spec draftId fetchBytes env 0 refs).2.2.1,
    (remoteCopyAux_spec draftId fetchBytes env 0 refs).2.2.2⟩

/-- C6 witness: the spec's end-to-end scenario — two references, one with an
empty URL: one warning, one upload attempt carrying the downloaded bytes,
draft still created. -/
theorem c6_remote_copy_witness :
    (runRemoteCopy (.pyint 11) (fun _ => [9, 9]) envAllOk
      ["https://img.example/full.jpg", ""]).draftCreated = true ∧
    (runRemoteCopy (.pyint 11) (fun _ => [9, 9]) envAllOk
      ["https://img.example/full.jpg", ""]).warnings.length = 1 ∧
    ((runRemoteCopy (.pyint 11) (fun _ => [9, 9]) envAllOk
      ["https://img.example/full.jpg", ""]).calls.filter RCall.isUpload).length = 1 ∧
    RCall.upload (.pyint 11) [9, 9] ∈
      (runRemoteCopy (.pyint 11) (fun _ => [9, 9]) envAllOk
        ["https://img.example/full.jpg", ""]).calls :=
  have h := c6_remote_copy (.pyint 11) (fun _ => [9, 9]) envAllOk
    ["https://img.example/full.jpg", ""]
  ⟨h.1, h.2.1, h.2.2.1,
    (h.2.2.2.2 "https://img.example/full.jpg" (by simp) (by decide)).2⟩

/-! ### Claim C7 -/

/-- C7, amended: both terminal failures halt the run immediately — the trace
stops at the failed call, the status feed ends with the fixed error line and
the raw response body echoed verbatim in a code block — but the numeric HTTP
status is only branched on, never included in the user-visible output. -/
theorem c7_terminal_failure_amended :
    (∀ (token url : String) (files : List FileInput) (env : Env)
      (lid : String) (s : Nat) (t : String) (listing : PyVal),
      ¬(token = "" ∨ url = "") → extract_listing_id url = some lid →
      env.fetch = .resp s t listing → s ≠ 200 →
      runPipeline token url files env =
        { msgs := [.info ("Fetching listing " ++ lid ++ " metadata..."),
            .error "Failed to fetch listing metadata.", .codeBlock t],
          calls := [.getListing lid (authOf token)], status := .fetchFailed }) ∧
    (∀ (token url : String) (files : List FileInput) (env : Env)
      (lid : String) (t : String) (listing : PyVal) (payload : PyVal)
      (s₂ : Nat) (t₂ : String) (dd : PyVal),
      ¬(token = "" ∨ url = "") → extract_listing_id url = some lid →
      env.fetch = .resp 200 t listing → buildPayload listing = .ok payload →
      env.draft = .resp s₂ t₂ dd → ¬(s₂ = 200 ∨ s₂ = 201) →
      runPipeline token url files env =
        { msgs := [.info ("Fetching listing " ++ lid ++ " metadata..."),
            .info "Creating draft listing...",
            .error "Draft creation failed.", .codeBlock t₂],
          calls := [.getListing lid (authOf token), .createDraft (authOf token) payload],
          status := .draftFailed }) :=
  ⟨c7_fetch_branch, c7_draft_branch⟩

/-- C7 counterexample: a fetch failing with status 404 and a body not
mentioning the status — the run halts and shows the body, but no message of
the whole status feed contains the digits 404, so the raw HTTP status is not
surfaced, contrary to the claim. -/
theorem c7_terminal_failure_counterexample :
    (runPipeline "T" "https://reverb.com/item/123" [] fetch404Env).status = .fetchFailed ∧
    Msg.codeBlock "The requested listing does not exist." ∈
      (runPipeline "T" "https://reverb.com/item/123" [] fetch404Env).msgs ∧
    (runPipeline "T" "https://reverb.com/item/123" [] fetch404Env).msgs.all
      (fun m => !(strContains (msgText m).toList "404".toList)) = true := by
  decide

/-- C7 witness: the fetch-failure branch at a concrete run. -/
theorem c7_terminal_failure_witness :
    runPipeline "T" "https://reverb.com/item/123" [] fetch404Env =
      { msgs := [.info "Fetching listing 123 metadata...",
          .error "Failed to fetch listing metadata.",
          .codeBlock "The requested listing does not exist."],
        calls := [.getListing "123" (authOf "T")], status := .fetchFailed } :=
  c7_terminal_failure_amended.1 "T" "https://reverb.com/item/123" [] fetch404Env
    "123" 404 "The requested listing does not exist." .pynone
    (by decide) (by decide) rfl (by decide)

/-! ### Claim C8 -/

/-- C8: the bearer token never reaches the status feed — two runs differing
only in the (non-empty) token value, against identical HTTP responses,
produce identical message feeds and identical final states; the token flows
only into the Authorization headers of the issued requests. -/
theorem c8_token_noninterference (t₁ t₂ url : String) (files : List FileInput)
    (env : Env) (h₁ : ¬t₁ = "") (h₂ : ¬t₂ = "") :
    (runPipeline t₁ url files env).msgs = (runPipeline t₂ url files env).msgs ∧
    (runPipeline t₁ url files env).status = (runPipeline t₂ url files env).status := by
  unfold runPipeline
  simp only [h₁, h₂, false_or]
  refine ⟨?_, ?_⟩
  all_goals
    repeat' split
  all_goals first
    | rfl
    | (rw [photoStage_msgs (authOf t₁) (authOf t₂)])

/-- C8 witness: two concrete tokens, same environment, same feed. -/
theorem c8_token_noninterference_witness :
    (runPipeline "tokenA" "https://reverb.com/item/123" [] okRunEnv).msgs =
    (runPipeline "tokenB" "https://reverb.com/item/123" [] okRunEnv).msgs :=
  (c8_token_noninterference "tokenA" "tokenB" "https://reverb.com/item/123" [] okRunEnv
    (by decide) (by decide)).1

end ReverbDraft
